import Mathlib

/-!
Shallow embedding of the client-side interactivity script of the
portfolio repository (src/assets/js/main.js and the minimal variant
src/assets/main.js), together with theorems settling the spec claims.

Browser state is made explicit:
* the theme subsystem is a pair (document `data-theme` attribute,
  `localStorage` entry under key `portfolio-theme`), each `Option String`
  with `none` for an absent attribute / key;
* class lists are `List String`; `classList.add/remove/toggle/contains`
  are modelled on lists;
* the anchor-click handler returns `Except String PageState`, the
  `error` case being an exception propagating out of the handler
  (the platform's `querySelector` throws a SyntaxError on an invalid
  selector such as the bare string "#").

JavaScript string truthiness (`if (s)`, `s || d`) is modelled
explicitly: `none` and `some ""` are falsy.
-/

namespace Portfolio

/-- Truthiness of a nullable JS string: `null`/absent and `""` are falsy. -/
def truthy : Option String → Bool
  | none => false
  | some s => !s.isEmpty

/-- JS `s || default` for a nullable string: the fallback fires on
`null` and on the empty string. -/
def orElseStr (s : Option String) (d : String) : String :=
  match s with
  | none => d
  | some t => if t.isEmpty then d else t

/-! ## Theme switcher (src/assets/js/main.js lines 152-195, 209) -/

/-- The theme-relevant browser state: the `data-theme` attribute on the
`<html>` element and the `portfolio-theme` entry in `localStorage`. -/
structure ThemeState where
  dataTheme : Option String
  storedTheme : Option String
  deriving Repr, DecidableEq

/-- `applyTheme(theme)`: sets the document attribute and persists the
value, in one step. -/
def applyTheme (theme : String) (s : ThemeState) : ThemeState :=
  { s with dataTheme := some theme, storedTheme := some theme }

/-- `initializeTheme()`: use a truthy saved theme verbatim; otherwise fall
back to the OS preference (`prefers-color-scheme: dark`), else `"light"`.
`prefersDark` is the result of the media-query check. -/
def initializeTheme (prefersDark : Bool) (s : ThemeState) : ThemeState :=
  let savedTheme := s.storedTheme
  if truthy savedTheme then
    applyTheme (savedTheme.getD "") s
  else if prefersDark then
    applyTheme "dark" s
  else
    applyTheme "light" s

/-- The theme-toggle click handler: read the current theme off the
attribute (falsy ⇒ `"light"`), flip it, apply. -/
def toggleTheme (s : ThemeState) : ThemeState :=
  let currentTheme := orElseStr s.dataTheme "light"
  let newTheme := if currentTheme = "light" then "dark" else "light"
  applyTheme newTheme s

/-- Iterated activations of the theme toggle. -/
def toggleN : Nat → ThemeState → ThemeState
  | 0, s => s
  | n + 1, s => toggleN n (toggleTheme s)

/-- The complement of a theme in {light, dark}. -/
def complementTheme (t : String) : String :=
  if t = "light" then "dark" else "light"

theorem toggleTheme_dataTheme_of_valid (s : ThemeState) (t : String)
    (ht : s.dataTheme = some t) (hv : t = "light" ∨ t = "dark") :
    (toggleTheme s).dataTheme = some (complementTheme t) := by
  rcases hv with h | h <;>
    simp only [toggleTheme, applyTheme, orElseStr, complementTheme, ht, h] <;>
    congr 1

theorem complementTheme_valid (t : String) (hv : t = "light" ∨ t = "dark") :
    complementTheme t = "light" ∨ complementTheme t = "dark" := by
  rcases hv with h | h <;> simp [complementTheme, h]

theorem complementTheme_involutive (t : String)
    (hv : t = "light" ∨ t = "dark") :
    complementTheme (complementTheme t) = t := by
  rcases hv with h | h <;> simp [complementTheme, h]

theorem toggleN_dataTheme (n : Nat) (s : ThemeState) (t : String)
    (ht : s.dataTheme = some t) (hv : t = "light" ∨ t = "dark") :
    (toggleN n s).dataTheme =
      some (if n % 2 = 0 then t else complementTheme t) := by
  induction n generalizing s t with
  | zero => simpa [toggleN] using ht
  | succ n ih =>
    have h1 : (toggleTheme s).dataTheme = some (complementTheme t) :=
      toggleTheme_dataTheme_of_valid s t ht hv
    have h2 := ih (toggleTheme s) (complementTheme t) h1
      (complementTheme_valid t hv)
    rw [toggleN, h2]
    rcases Nat.even_or_odd n with he | ho
    · have hn : n % 2 = 0 := Nat.even_iff.mp he
      have hn1 : (n + 1) % 2 = 1 := by omega
      simp [hn, hn1]
    · have hn : n % 2 = 1 := Nat.odd_iff.mp ho
      have hn1 : (n + 1) % 2 = 0 := by omega
      simp [hn, hn1, complementTheme_involutive t hv]

/-- C1: for an initial state S₀ ∈ {light, dark}, after N activations of
the theme toggle the document theme is S₀ when N is even and the
complement of S₀ when N is odd. -/
theorem theme_toggle_parity (s : ThemeState) (s0 : String) (n : Nat)
    (h0 : s.dataTheme = some s0) (hv : s0 = "light" ∨ s0 = "dark") :
    (toggleN n s).dataTheme =
      some (if n % 2 = 0 then s0 else complementTheme s0) :=
  toggleN_dataTheme n s s0 h0 hv

theorem theme_toggle_parity_witness :
    (toggleN 3 ⟨some "light", none⟩).dataTheme =
      some (if 3 % 2 = 0 then "light" else complementTheme "light") :=
  theme_toggle_parity ⟨some "light", none⟩ "light" 3 rfl (Or.inl rfl)

/-- C2 counterexample: the empty string is a value persisted under
`portfolio-theme` (the key exists, `getItem` returns `""`), yet with the
OS preferring dark the initial theme becomes `"dark"`, not the persisted
value used verbatim: `if (savedTheme)` tests truthiness, not presence. -/
theorem initializeTheme_empty_persisted_not_verbatim :
    (ThemeState.mk none (some "")).storedTheme = some "" ∧
      (initializeTheme true ⟨none, some ""⟩).dataTheme ≠ some "" ∧
      (initializeTheme true ⟨none, some ""⟩).dataTheme = some "dark" := by
  refine ⟨rfl, ?_, ?_⟩ <;> decide

/-- C2 (amended): a persisted non-empty value is used verbatim regardless
of the OS preference; if the persisted value is absent or empty, the
initial theme is `"dark"` when the OS prefers dark and `"light"`
otherwise. -/
theorem initializeTheme_priority (prefersDark : Bool) (s : ThemeState) :
    (∀ t : String, s.storedTheme = some t → t ≠ "" →
        (initializeTheme prefersDark s).dataTheme = some t ∧
        (initializeTheme prefersDark s).storedTheme = some t) ∧
      (truthy s.storedTheme = false →
        (initializeTheme prefersDark s).dataTheme =
          some (if prefersDark then "dark" else "light")) := by
  constructor
  · intro t ht hne
    have hmt : ¬t.isEmpty := by
      simpa [String.isEmpty_iff] using hne
    simp [initializeTheme, truthy, applyTheme, ht, hmt]
  · intro hf
    match hs : s.storedTheme with
    | none =>
      cases prefersDark <;> simp [initializeTheme, truthy, applyTheme, hs]
    | some t =>
      have hte : t.isEmpty := by
        simpa [truthy, hs] using hf
      cases prefersDark <;>
        simp [initializeTheme, truthy, applyTheme, hs, hte]

theorem initializeTheme_priority_witness :
    (initializeTheme true ⟨none, some "solarized"⟩).dataTheme =
        some "solarized" ∧
      (initializeTheme true ⟨none, some "solarized"⟩).storedTheme =
        some "solarized" :=
  (initializeTheme_priority true ⟨none, some "solarized"⟩).1
    "solarized" rfl (by decide)

/-- C3: after initialization (for any OS preference and any prior state)
and after any toggle transition, the `data-theme` attribute equals the
value persisted under `portfolio-theme`: both mutations go through the
single path `applyTheme`, which sets the two together. -/
theorem theme_attribute_storage_sync :
    (∀ (prefersDark : Bool) (s : ThemeState),
        (initializeTheme prefersDark s).dataTheme =
          (initializeTheme prefersDark s).storedTheme) ∧
      (∀ s : ThemeState, (toggleTheme s).dataTheme = (toggleTheme s).storedTheme) := by
  constructor
  · intro prefersDark s
    by_cases h : truthy s.storedTheme = true <;>
      cases prefersDark <;>
      simp [initializeTheme, applyTheme, h]
  · intro s
    simp [toggleTheme, applyTheme]

/-- C9: clicking the theme toggle when the `data-theme` attribute is
absent treats the current theme as `"light"` (via `|| 'light'`), so the
toggle sets both the attribute and the persisted value to `"dark"`. -/
theorem toggle_absent_attribute_goes_dark (s : ThemeState)
    (h : s.dataTheme = none) :
    (toggleTheme s).dataTheme = some "dark" ∧
      (toggleTheme s).storedTheme = some "dark" := by
  constructor <;> simp [toggleTheme, orElseStr, applyTheme, h]

theorem toggle_absent_attribute_goes_dark_witness :
    (toggleTheme ⟨none, some "light"⟩).dataTheme = some "dark" ∧
      (toggleTheme ⟨none, some "light"⟩).storedTheme = some "dark" :=
  toggle_absent_attribute_goes_dark ⟨none, some "light"⟩ rfl

/-- C10: any non-empty persisted string — including values outside
{light, dark} — is applied verbatim at initialization: the attribute is
set to it and it is re-persisted; no validation occurs. -/
theorem initializeTheme_no_validation (prefersDark : Bool)
    (d : Option String) (t : String) (h : t ≠ "") :
    (initializeTheme prefersDark ⟨d, some t⟩).dataTheme = some t ∧
      (initializeTheme prefersDark ⟨d, some t⟩).storedTheme = some t := by
  have hmt : ¬t.isEmpty := by
    simpa [String.isEmpty_iff] using h
  simp [initializeTheme, truthy, applyTheme, hmt]

theorem initializeTheme_no_validation_witness :
    (initializeTheme true ⟨none, some "neon-purple"⟩).dataTheme =
        some "neon-purple" ∧
      (initializeTheme true ⟨none, some "neon-purple"⟩).storedTheme =
        some "neon-purple" :=
  initializeTheme_no_validation true none "neon-purple" (by decide)

/-! ## classList operations

An element's class list is a `List String`. `add` appends when absent,
`remove` deletes every occurrence, `toggle` flips membership,
`contains` tests membership. -/

/-- `classList.contains(c)`. -/
def classContains (c : String) (cs : List String) : Bool :=
  cs.contains c

/-- `classList.add(c)`: no-op when the class is already present. -/
def classAdd (c : String) (cs : List String) : List String :=
  if classContains c cs then cs else cs ++ [c]

/-- `classList.remove(c)`. -/
def classRemove (c : String) (cs : List String) : List String :=
  cs.filter (fun x => x ≠ c)

/-- `classList.toggle(c)`. -/
def classToggle (c : String) (cs : List String) : List String :=
  if classContains c cs then classRemove c cs else classAdd c cs

theorem classContains_classRemove (c : String) (cs : List String) :
    classContains c (classRemove c cs) = false := by
  simp [classContains, classRemove, List.contains, List.mem_filter]

theorem classContains_classAdd (c : String) (cs : List String) :
    classContains c (classAdd c cs) = true := by
  by_cases h : classContains c cs
  · rw [classAdd, if_pos h]; exact h
  · simp [classAdd, classContains, List.contains] at h ⊢
    simp [h]

theorem classContains_classToggle (c : String) (cs : List String) :
    classContains c (classToggle c cs) = !classContains c cs := by
  by_cases h : classContains c cs
  · simp [classToggle, h, classContains_classRemove]
  · have hb : classContains c cs = false := by simpa using h
    simp [classToggle, hb, classContains_classAdd]

/-! ## Active navigation link highlighting
   (src/assets/js/main.js lines 122-146) -/

/-- A navigation link (`.sidebar nav a`): its `href` attribute and
whether it currently carries the `active` class. -/
structure NavLink where
  href : String
  active : Bool
  deriving Repr, DecidableEq

/-- `navLinks.forEach(link => link.classList.remove('active'))`. -/
def clearActive (links : List NavLink) : List NavLink :=
  links.map (fun l => { l with active := false })

/-- `document.querySelector` on `.sidebar nav a[href="#id"]` followed by
`classList.add('active')`: the FIRST link whose `href` equals the target
is marked; when none matches, nothing changes. -/
def markFirst (target : String) : List NavLink → List NavLink
  | [] => []
  | l :: ls =>
    if l.href = target then { l with active := true } :: ls
    else l :: markFirst target ls

/-- The `activeLinkObserver` callback's action for one entry whose
section (with the given `id`) is intersecting the activation band:
clear the active marker everywhere, then mark the matching link. -/
def handleSectionEnter (id : String) (links : List NavLink) : List NavLink :=
  markFirst ("#" ++ id) (clearActive links)

/-- Number of links currently carrying the active marker. -/
def countActive (links : List NavLink) : Nat :=
  (links.filter (fun l => l.active)).length

theorem countActive_clearActive (links : List NavLink) :
    countActive (clearActive links) = 0 := by
  induction links with
  | nil => rfl
  | cons l ls ih => simp [countActive, clearActive, List.filter] at ih ⊢

theorem clearActive_inactive (links : List NavLink) :
    ∀ l ∈ clearActive links, l.active = false := by
  intro l hl
  rcases List.mem_map.mp hl with ⟨x, _, rfl⟩
  rfl

theorem markFirst_countActive (target : String) (links : List NavLink)
    (hall : ∀ l ∈ links, l.active = false)
    (hex : ∃ l ∈ links, l.href = target) :
    countActive (markFirst target links) = 1 := by
  induction links with
  | nil => exact absurd hex (by simp)
  | cons l ls ih =>
    by_cases h : l.href = target
    · have hls : countActive ls = 0 := by
        have : ls.filter (fun l => l.active) = [] := by
          apply List.filter_eq_nil_iff.mpr
          intro x hx
          simp [hall x (List.mem_cons_of_mem l hx)]
        simp [countActive, this]
      simp [markFirst, h, countActive, List.filter]
      simpa [countActive] using hls
    · have hex' : ∃ x ∈ ls, x.href = target := by
        rcases hex with ⟨x, hx, hxt⟩
        rcases List.mem_cons.mp hx with rfl | hx'
        · exact absurd hxt h
        · exact ⟨x, hx', hxt⟩
      have hall' : ∀ x ∈ ls, x.active = false := fun x hx =>
        hall x (List.mem_cons_of_mem l hx)
      have hl : l.active = false := hall l (List.mem_cons_self l ls)
      simpa [markFirst, h, countActive, List.filter, hl] using ih hall' hex'

theorem markFirst_active_href (target : String) (links : List NavLink)
    (hall : ∀ l ∈ links, l.active = false) :
    ∀ l ∈ markFirst target links, l.active = true → l.href = target := by
  induction links with
  | nil => intro l hl; simp [markFirst] at hl
  | cons x xs ih =>
    intro l hl hla
    by_cases h : x.href = target
    · rw [markFirst, if_pos h] at hl
      rcases List.mem_cons.mp hl with rfl | hl'
      · exact h
      · exact absurd hla (by simp [hall l (List.mem_cons_of_mem x hl')])
    · rw [markFirst, if_neg h] at hl
      rcases List.mem_cons.mp hl with rfl | hl'
      · exact absurd hla (by simp [hall l (List.mem_cons_self _ _)])
      · exact ih (fun y hy => hall y (List.mem_cons_of_mem x hy)) l hl' hla

/-- C4: when a tracked section with identifier `id` enters the activation
band and some navigation link targets `#id`, the callback leaves exactly
one link carrying the active marker, and any link carrying it targets
`#id`. -/
theorem active_link_unique (id : String) (links : List NavLink)
    (hex : ∃ l ∈ links, l.href = "#" ++ id) :
    countActive (handleSectionEnter id links) = 1 ∧
      ∀ l ∈ handleSectionEnter id links, l.active = true →
        l.href = "#" ++ id := by
  have hall := clearActive_inactive links
  have hex' : ∃ l ∈ clearActive links, l.href = "#" ++ id := by
    rcases hex with ⟨l, hl, hlt⟩
    exact ⟨{ l with active := false }, List.mem_map_of_mem _ hl, hlt⟩
  exact ⟨markFirst_countActive _ _ hall hex',
    markFirst_active_href _ _ hall⟩

theorem active_link_unique_witness :
    countActive (handleSectionEnter "about"
        [⟨"#home", true⟩, ⟨"#about", false⟩, ⟨"#contact", false⟩]) = 1 ∧
      ∀ l ∈ handleSectionEnter "about"
          [⟨"#home", true⟩, ⟨"#about", false⟩, ⟨"#contact", false⟩],
        l.active = true → l.href = "#" ++ "about" :=
  active_link_unique "about"
    [⟨"#home", true⟩, ⟨"#about", false⟩, ⟨"#contact", false⟩]
    ⟨⟨"#about", false⟩, by decide, by decide⟩

/-! ## Scroll-triggered animations (src/assets/js/main.js lines 91-115) -/

/-- An element registered with the scroll observer; its class list holds
the `visible` class exactly when the animation flag is set. -/
structure AnimElement where
  classes : List String
  deriving Repr, DecidableEq

/-- The `scrollObserver` callback's action for one entry: add `visible`
when the entry is intersecting, remove it otherwise. -/
def scrollObserverCallback (isIntersecting : Bool) (e : AnimElement) :
    AnimElement :=
  if isIntersecting then { classes := classAdd "visible" e.classes }
  else { classes := classRemove "visible" e.classes }

/-- The observer's configured threshold: the callback fires (with
`isIntersecting = true`) once at least this fraction of the element's
area is in the viewport. -/
def scrollObserverThreshold : ℚ := 0.15

/-- The element's visibility flag: membership of the `visible` class. -/
def visibleFlag (e : AnimElement) : Bool :=
  classContains "visible" e.classes

/-- C7: the scroll-observer callback sets the visibility flag to the
entry's intersecting bit — so an enter, exit, re-enter sequence drives
the flag true → false → true — and the configured enter threshold is
15% of the element's area. -/
theorem scroll_animation_flag (e : AnimElement) :
    visibleFlag (scrollObserverCallback true e) = true ∧
      visibleFlag (scrollObserverCallback false e) = false ∧
      (visibleFlag (scrollObserverCallback true e) = true ∧
        visibleFlag
          (scrollObserverCallback false (scrollObserverCallback true e)) =
            false ∧
        visibleFlag
          (scrollObserverCallback true
            (scrollObserverCallback false (scrollObserverCallback true e))) =
            true) ∧
      scrollObserverThreshold = 15 / 100 := by
  have hT : ∀ x : AnimElement,
      visibleFlag (scrollObserverCallback true x) = true := fun x => by
    simpa [scrollObserverCallback, visibleFlag] using
      classContains_classAdd "visible" x.classes
  have hF : ∀ x : AnimElement,
      visibleFlag (scrollObserverCallback false x) = false := fun x => by
    simpa [scrollObserverCallback, visibleFlag] using
      classContains_classRemove "visible" x.classes
  exact ⟨hT e, hF e, ⟨hT e, hF _, hT _⟩, by norm_num [scrollObserverThreshold]⟩

/-! ## Mobile navigation (hamburger) toggle

Two handlers exist in the repository: the full one in
src/assets/js/main.js lines 30-52, and a minimal variant in
src/assets/main.js lines 6-15. -/

/-- The page state shared by the hamburger and anchor-click handlers:
the sidebar's class list, the hamburger button's class list, inner HTML,
`aria-label` and `aria-expanded` attributes, and the log of
`scrollIntoView` calls made so far (by target element id). -/
structure PageState where
  sidebarClasses : List String
  hamburgerClasses : List String
  hamburgerHTML : String
  hamburgerAriaLabel : String
  hamburgerAriaExpanded : String
  scrollCalls : List String
  deriving Repr, DecidableEq

/-- The full hamburger click handler: toggle `active` on the sidebar and
`toggled` on the button, mirror the open state into `aria-expanded`
(stringified boolean), and swap the icon and accessible label. -/
def hamburgerClick (s : PageState) : PageState :=
  let sidebarClasses := classToggle "active" s.sidebarClasses
  let hamburgerClasses := classToggle "toggled" s.hamburgerClasses
  let isExpanded := classContains "active" sidebarClasses
  if isExpanded then
    { s with
      sidebarClasses := sidebarClasses
      hamburgerClasses := hamburgerClasses
      hamburgerAriaExpanded := toString isExpanded
      hamburgerHTML := "&times;"
      hamburgerAriaLabel := "Close navigation" }
  else
    { s with
      sidebarClasses := sidebarClasses
      hamburgerClasses := hamburgerClasses
      hamburgerAriaExpanded := toString isExpanded
      hamburgerHTML := "&#9776;"
      hamburgerAriaLabel := "Toggle navigation" }

/-- The minimal variant (src/assets/main.js): toggles `active` on the
sidebar and mirrors the open state into `aria-expanded`; it touches
neither the button's class list nor its icon or label. -/
def hamburgerClickMinimal (s : PageState) : PageState :=
  let sidebarClasses := classToggle "active" s.sidebarClasses
  { s with
    sidebarClasses := sidebarClasses
    hamburgerAriaExpanded :=
      toString (classContains "active" sidebarClasses) }

/-- C8 counterexample: under the minimal variant's handler, activating
the trigger on a closed panel opens the panel but leaves the trigger's
class list unchanged — the flipped open state is NOT reflected as a CSS
state class on the trigger control, as the claim requires of every
activation. -/
theorem hamburger_minimal_no_trigger_class :
    classContains "active"
        (hamburgerClickMinimal
          ⟨[], [], "&#9776;", "Toggle navigation", "false", []⟩).sidebarClasses
        = true ∧
      (hamburgerClickMinimal
          ⟨[], [], "&#9776;", "Toggle navigation", "false", []⟩).hamburgerClasses
        = [] := by
  constructor <;> decide

/-- C8 (amended): the full handler flips the open state, reflecting it
as the `active` class on the panel and the `toggled` class on the
trigger, and afterwards `aria-expanded` equals (the string form of)
whether the panel carries the open class; the minimal variant flips and
mirrors the panel class into `aria-expanded` the same way but leaves the
trigger's class list unchanged. -/
theorem hamburger_click_flips_state (s : PageState) :
    (classContains "active" (hamburgerClick s).sidebarClasses =
        !classContains "active" s.sidebarClasses ∧
      classContains "toggled" (hamburgerClick s).hamburgerClasses =
        !classContains "toggled" s.hamburgerClasses ∧
      (hamburgerClick s).hamburgerAriaExpanded =
        toString (classContains "active" (hamburgerClick s).sidebarClasses)) ∧
      (classContains "active" (hamburgerClickMinimal s).sidebarClasses =
          !classContains "active" s.sidebarClasses ∧
        (hamburgerClickMinimal s).hamburgerClasses = s.hamburgerClasses ∧
        (hamburgerClickMinimal s).hamburgerAriaExpanded =
          toString
            (classContains "active" (hamburgerClickMinimal s).sidebarClasses)) := by
  have hside : (hamburgerClick s).sidebarClasses =
      classToggle "active" s.sidebarClasses := by
    rw [hamburgerClick]
    by_cases h :
        classContains "active" (classToggle "active" s.sidebarClasses) <;>
      simp [h]
  have hham : (hamburgerClick s).hamburgerClasses =
      classToggle "toggled" s.hamburgerClasses := by
    rw [hamburgerClick]
    by_cases h :
        classContains "active" (classToggle "active" s.sidebarClasses) <;>
      simp [h]
  have haria : (hamburgerClick s).hamburgerAriaExpanded =
      toString (classContains "active" (classToggle "active" s.sidebarClasses)) := by
    rw [hamburgerClick]
    by_cases h :
        classContains "active" (classToggle "active" s.sidebarClasses) <;>
      simp [h]
  refine ⟨⟨?_, ?_, ?_⟩, ⟨?_, rfl, rfl⟩⟩
  · rw [hside, classContains_classToggle]
  · rw [hham, classContains_classToggle]
  · rw [haria, hside]
  · rw [hamburgerClickMinimal, classContains_classToggle]

/-! ## Anchor smooth-scroll click handler
   (src/assets/js/main.js lines 58-84)

The handler calls `document.querySelector(targetId)` with the link's
raw `href`. The platform parses that string as a CSS selector and
THROWS a SyntaxError on an invalid one — in particular on the bare
string "#" (the selector must be `#` followed by a CSS identifier).
`isValidFragmentSelector` models that platform check for the
`#fragment` selectors this handler builds: `#` followed by a non-empty
identifier of letters, digits, hyphens and underscores not starting
with a digit or hyphen. The handlers themselves are translated from the
source; only this selector-validity check is platform behaviour. -/

/-- A character allowed inside the modelled CSS identifiers. -/
def isIdentChar (c : Char) : Bool :=
  c.isAlpha || c.isDigit || c = '-' || c = '_'

/-- Whether `sel` is a valid `#fragment` CSS selector (see above);
`querySelector` throws a SyntaxError exactly when this is false. -/
def isValidFragmentSelector (sel : String) : Bool :=
  match sel.toList with
  | '#' :: frag =>
    !frag.isEmpty && frag.all isIdentChar &&
      !(frag.headD 'a').isDigit && frag.headD 'a' ≠ '-'
  | _ => false

/-- The element id a `#fragment` selector refers to: the href with its
leading `#` removed. -/
def fragmentId (href : String) : String :=
  String.mk (href.toList.drop 1)

/-- A same-page hash anchor link (`a[href^="#"]`): its `href` attribute
and whether `link.closest('.sidebar')` finds an ancestor (the link sits
inside the sidebar). -/
structure Anchor where
  href : String
  inSidebar : Bool
  deriving Repr, DecidableEq

/-- The anchor-click handler. `doc` is the set of element ids present in
the document (`document.querySelector('#id')` finds an element exactly
when `id ∈ doc`). `e.preventDefault()` suppresses default navigation and
is not part of the modelled state. The `error` result is an exception
propagating out of the handler: the surrounding `try` block covered only
the one-shot setup code, not the handlers it installed. -/
def anchorClick (doc : List String) (link : Anchor) (s : PageState) :
    Except String PageState :=
  let targetId := link.href
  if isValidFragmentSelector targetId then
    let frag := fragmentId targetId
    let s1 :=
      if frag ∈ doc then
        { s with scrollCalls := s.scrollCalls ++ [frag] }
      else s
    if classContains "active" s1.sidebarClasses && link.inSidebar then
      Except.ok
        { s1 with
          sidebarClasses := classRemove "active" s1.sidebarClasses
          hamburgerAriaExpanded := "false"
          hamburgerClasses := classRemove "toggled" s1.hamburgerClasses
          hamburgerHTML := "&#9776;"
          hamburgerAriaLabel := "Toggle navigation" }
    else
      Except.ok s1
  else
    Except.error "SyntaxError"

/-- C5 counterexample: a click on the link `href="#"` — a same-page hash
anchor whose (empty) target fragment matches no element of the document
— makes `querySelector("#")` throw, and the exception propagates out of
the handler, contrary to the claimed silent no-op. -/
theorem anchor_click_bare_hash_throws :
    anchorClick ["home", "about"] ⟨"#", false⟩
        ⟨[], [], "&#9776;", "Toggle navigation", "false", []⟩ =
      Except.error "SyntaxError" := rfl

/-- C5 (amended): for a click on a hash anchor link whose `href` is a
valid fragment selector but whose fragment matches no element, the
handler completes normally with no `scrollIntoView` call; with an
invalid `href` such as the bare "#", the selector lookup throws and the
exception propagates out of the handler. -/
theorem anchor_click_missing_target_no_scroll (doc : List String)
    (link : Anchor) (s : PageState)
    (hv : isValidFragmentSelector link.href = true)
    (hm : fragmentId link.href ∉ doc) :
    ∃ s', anchorClick doc link s = Except.ok s' ∧
      s'.scrollCalls = s.scrollCalls := by
  rw [anchorClick]
  simp only [hv, if_true, hm, if_false]
  by_cases h : classContains "active" s.sidebarClasses && link.inSidebar <;>
    simp [h]

theorem anchor_click_missing_target_no_scroll_witness :
    ∃ s', anchorClick ["home", "about"] ⟨"#contact", false⟩
        ⟨[], [], "&#9776;", "Toggle navigation", "false", []⟩ =
          Except.ok s' ∧
      s'.scrollCalls =
        (PageState.mk [] [] "&#9776;" "Toggle navigation" "false" []).scrollCalls :=
  anchor_click_missing_target_no_scroll ["home", "about"] ⟨"#contact", false⟩
    ⟨[], [], "&#9776;", "Toggle navigation", "false", []⟩
    (by decide) (by decide)

/-- C6 counterexample: a navigation link inside the open sidebar with
`href="#"` — a hash anchor, so the handler is attached to it — makes the
selector lookup throw before the close branch is reached: the handler
exits by exception and the panel stays open, contrary to the claim for
every activation of a sidebar navigation link. -/
theorem anchor_click_sidebar_bare_hash_stays_open :
    anchorClick ["home", "about"] ⟨"#", true⟩
        ⟨["active"], ["toggled"], "&times;", "Close navigation", "true", []⟩ =
      Except.error "SyntaxError" ∧
      classContains "active"
        (PageState.mk ["active"] ["toggled"] "&times;" "Close navigation"
          "true" []).sidebarClasses = true :=
  ⟨rfl, by decide⟩

/-- C6 (amended): when a navigation link inside the sidebar whose `href`
is a valid fragment selector is activated while the panel is open, the
handler completes normally, the panel's open class is removed, and the
trigger is reset: `toggled` removed, hamburger glyph restored,
`aria-label` back to "Toggle navigation", `aria-expanded` set to
"false". -/
theorem anchor_click_closes_sidebar (doc : List String) (link : Anchor)
    (s : PageState)
    (hv : isValidFragmentSelector link.href = true)
    (hopen : classContains "active" s.sidebarClasses = true)
    (hin : link.inSidebar = true) :
    ∃ s', anchorClick doc link s = Except.ok s' ∧
      classContains "active" s'.sidebarClasses = false ∧
      classContains "toggled" s'.hamburgerClasses = false ∧
      s'.hamburgerHTML = "&#9776;" ∧
      s'.hamburgerAriaLabel = "Toggle navigation" ∧
      s'.hamburgerAriaExpanded = "false" := by
  rw [anchorClick]
  simp only [hv, if_true]
  by_cases hd : fragmentId link.href ∈ doc <;>
    simp [hd, hopen, hin, classContains_classRemove]

theorem anchor_click_closes_sidebar_witness :
    ∃ s', anchorClick ["home", "about"] ⟨"#about", true⟩
        ⟨["active"], ["toggled"], "&times;", "Close navigation", "true", []⟩ =
          Except.ok s' ∧
      classContains "active" s'.sidebarClasses = false ∧
      classContains "toggled" s'.hamburgerClasses = false ∧
      s'.hamburgerHTML = "&#9776;" ∧
      s'.hamburgerAriaLabel = "Toggle navigation" ∧
      s'.hamburgerAriaExpanded = "false" :=
  anchor_click_closes_sidebar ["home", "about"] ⟨"#about", true⟩
    ⟨["active"], ["toggled"], "&times;", "Close navigation", "true", []⟩
    (by decide) (by decide) rfl

end Portfolio
